import Mathlib

/-!
Verification of the uavcrew-mcp-server authentication and credential-resolution
pipeline, shallowly embedded from the Python sources:
  src/mcp_server/token_resolver.py  (TokenResolver, ResolveResult)
  src/mcp_server/auth.py            (DelegationClaims, subject parsing)
  src/mcp_server/server.py          (AuthMiddleware.dispatch, _check_scope, tools)
  src/mcp_server/manifest.py        (manifest structural validation)

Python strings are modelled as Lean `String`; machine-level details (JWT
cryptography, the HTTP stack) enter as oracle parameters.  Python truthiness
of the values that the code tests with `if not x:` is modelled explicitly,
including the fact that a `@dataclass` instance with no `__bool__`/`__len__`
is always truthy.
-/

set_option autoImplicit false

/-- A single-quote character as a string, used to build the exact error
message texts of the source. -/
def squote : String := String.mk ['\'']

/-- Python truthiness of an optional string (`None` and `""` are falsy). -/
def strTruthy : Option String → Bool
  | none => false
  | some s => !(s == "")

/-- Models Python `str.startswith(p)`. -/
def strStartsWith (s p : String) : Bool := p.data.isPrefixOf s.data

/-- Models Python slicing `s[n:]`. -/
def strDrop (s : String) (n : Nat) : String := String.mk (s.data.drop n)

/-- Models Python `s.count(c)` for a single character `c`. -/
def countDots (s : String) : Nat := s.data.countP (fun c => c == '.')

/-- Whether `pat` occurs as a contiguous run inside `l`. -/
def hasInfix (pat : List Char) : List Char → Bool
  | [] => pat.isEmpty
  | c :: t => pat.isPrefixOf (c :: t) || hasInfix pat t

/-- Python whitespace characters stripped by `str.strip()`. -/
def isPySpace (c : Char) : Bool :=
  c == ' ' || c == '\t' || c == '\n' || c == '\r' || c == '\x0b' || c == '\x0c'

/-- Models Python `str.strip()` (default whitespace strip on both ends). -/
def pyStrip (s : String) : String :=
  String.mk (((s.data.dropWhile isPySpace).reverse.dropWhile isPySpace).reverse)

/-- Models Python `str.replace(pat, rep)` for a non-empty `pat` (the source
only uses the pattern `"agent:"`): scan left to right, replacing each
non-overlapping occurrence.  The fuel argument bounds recursion by the input
length; one character or one whole match is consumed per step, so
`s.length` fuel always suffices for a non-empty pattern. -/
def pyReplaceFuel (pat rep : List Char) : Nat → List Char → List Char
  | 0, s => s
  | _ + 1, [] => []
  | fuel + 1, c :: t =>
    if pat.isPrefixOf (c :: t) then rep ++ pyReplaceFuel pat rep fuel ((c :: t).drop pat.length)
    else c :: pyReplaceFuel pat rep fuel t

/-- Models Python `s.replace(pat, rep)` for non-empty `pat`. -/
def pyReplace (s pat rep : String) : String :=
  String.mk (pyReplaceFuel pat.data rep.data s.data.length s.data)

/-- Models Python `s.rstrip("/")`. -/
def pyRStripSlash (s : String) : String :=
  String.mk ((s.data.reverse.dropWhile (fun c => c == '/')).reverse)

-- ---------------------------------------------------------------------------
-- token_resolver.py
-- ---------------------------------------------------------------------------

/-- token_resolver.py: `ResolveResult` dataclass — result of a K4 resolution
attempt: `token` (or `None`) and a `reason` string. -/
structure ResolveResult where
  token : Option String
  reason : String
  deriving DecidableEq

/-- token_resolver.py: the `ok` property (`self.token is not None`). -/
def ResolveResult.ok (r : ResolveResult) : Bool := r.token.isSome

/-- Python truthiness of a `ResolveResult` instance.  `ResolveResult` is a
plain `@dataclass` defining neither `__bool__` nor `__len__`, so every
instance — including `ResolveResult(None, reason)` — is truthy.  This is what
`if not k4:` in server.py actually tests. -/
def ResolveResult.pyTruthy (_ : ResolveResult) : Bool := true

/-- The outcome of the single resolver-endpoint POST performed in dynamic
mode, supplied as an oracle: an HTTP response with its status code and the
`api_token` field of its JSON body (`none` when the field is missing), a
timeout, or a connection error. -/
inductive HttpOutcome where
  | status (code : Nat) (apiToken : Option String)
  | timeout
  | connError
  deriving DecidableEq

/-- token_resolver.py: `TokenResolver` after `__init__` — static mode holds
`self.static_token`, dynamic mode holds `self.resolver_url`. -/
inductive TokenResolver where
  | static (static_token : Option String)
  | dynamic (resolver_url : String)
  deriving DecidableEq

/-- The `auth` section of the manifest as consumed by
`TokenResolver.__init__` (`auth_config.get(...)` accesses). -/
structure AuthConfig where
  mode : Option String
  token_env : Option String
  resolver_path : Option String

/-- token_resolver.py lines 44-63: `TokenResolver.__init__`.  `env` models
`os.environ.get` (returning `""` for unset variables, as
`os.environ.get(env_var, "")` does).  Static mode reads and strips the
configured environment variable once at construction
(`os.environ.get(env_var, "").strip() or None`); dynamic mode builds the
resolver URL; an unknown mode raises `ValueError`. -/
def TokenResolver.init (cfg : AuthConfig) (env : String → String)
    (api_base_url : String) : Except String TokenResolver :=
  let mode := cfg.mode.getD "static"
  if mode == "static" then
    let env_var := cfg.token_env.getD "CLIENT_API_TOKEN"
    let v := pyStrip (env env_var)
    .ok (.static (if v == "" then none else some v))
  else if mode == "dynamic" then
    let resolver_path := cfg.resolver_path.getD ""
    .ok (.dynamic (pyRStripSlash api_base_url ++ resolver_path))
  else
    .error ("Unknown auth mode: " ++ mode)

/-- token_resolver.py lines 65-142: `TokenResolver.resolve`.  Returns the
`ResolveResult` together with a flag recording whether the resolver-endpoint
POST was issued (the `httpx` call inside the `try` block).  Static mode
tests `if self.static_token:` (Python truthiness) and never touches the
network.  Dynamic mode rejects a missing/empty T1 JWT, then a missing/empty
tenant id, both before any network call; otherwise the oracle `net` stands
for the response of the single POST. -/
def TokenResolver.resolve (r : TokenResolver) (tenant_id t1_jwt : Option String)
    (net : HttpOutcome) : ResolveResult × Bool :=
  match r with
  | .static st =>
    if strTruthy st then (⟨st, "ok"⟩, false)
    else (⟨none, "missing_env_var"⟩, false)
  | .dynamic _ =>
    if !strTruthy t1_jwt then (⟨none, "missing_jwt_for_dynamic_mode"⟩, false)
    else if !strTruthy tenant_id then (⟨none, "missing_tenant_id"⟩, false)
    else
      match net with
      | .status code apiToken =>
        if code == 200 then
          if strTruthy apiToken then (⟨apiToken, "ok"⟩, true)
          else (⟨none, "no_api_token_in_response"⟩, true)
        else (⟨none, "resolver_http_" ++ toString code⟩, true)
      | .timeout => (⟨none, "resolver_timeout"⟩, true)
      | .connError => (⟨none, "resolver_connection_error"⟩, true)

example : (TokenResolver.resolve (.dynamic "u") (some "t-1") (some "j.w.t")
    (.status 404 none)).1 = ⟨none, "resolver_http_404"⟩ := by decide

example : (TokenResolver.resolve (.dynamic "u") none none (.status 200 (some "k4")))
    = (⟨none, "missing_jwt_for_dynamic_mode"⟩, false) := by decide

example : (TokenResolver.resolve (.static (some "k4")) (some "t") none .timeout)
    = (⟨some "k4", "ok"⟩, false) := by decide

-- ---------------------------------------------------------------------------
-- auth.py
-- ---------------------------------------------------------------------------

/-- auth.py: `DelegationClaims` — validated claims of a T1 delegation JWT. -/
structure DelegationClaims where
  tenant_id : String
  org_id : String
  agent : String
  scope : List String
  max_tier : String
  session_id : String
  jti : String
  deriving DecidableEq

/-- auth.py line 65: derivation of the agent identifier from the `sub`
claim: `sub.replace("agent:", "") if sub.startswith("agent:") else sub`.
Note that Python `str.replace` replaces every occurrence of `"agent:"`, not
only the leading prefix. -/
def agentFromSub (sub : String) : String :=
  if strStartsWith sub "agent:" then pyReplace sub "agent:" "" else sub

/-- The decoded JWT payload as accessed by `validate_delegation_token`
after the signature/expiry/issuer/audience checks succeeded (each field is
a `payload.get(...)` access; `none` models an absent claim). -/
structure JwtPayload where
  sub : Option String
  tenant_id : Option String
  org_id : Option String
  scope : Option (List String)
  max_tier : Option String
  session_id : Option String
  jti : Option String

/-- auth.py lines 58-75: the claim-extraction tail of
`validate_delegation_token`, applied to a payload that already passed the
cryptographic checks (`jwt.decode` succeeded).  Rejects a missing or empty
`tenant_id` (`if not tenant_id:`); otherwise builds `DelegationClaims` with
the documented defaults for optional claims. -/
def claimsFromPayload (p : JwtPayload) : Option DelegationClaims :=
  if !strTruthy p.tenant_id then none
  else
    some
      { tenant_id := p.tenant_id.getD ""
        org_id := p.org_id.getD ""
        agent := agentFromSub (p.sub.getD "")
        scope := p.scope.getD []
        max_tier := p.max_tier.getD "read_only"
        session_id := p.session_id.getD ""
        jti := p.jti.getD "" }

example : agentFromSub "agent:tucker" = "tucker" := by decide
example : agentFromSub "agent:agent:bob" = "bob" := by decide
example : agentFromSub "svc-account" = "svc-account" := by decide

-- ---------------------------------------------------------------------------
-- server.py: scope check
-- ---------------------------------------------------------------------------

/-- The error dict `{"success": False, "error": ...}` returned by
`_check_scope` and by the tool handlers on failure. -/
structure ErrorDict where
  success : Bool
  error : String
  deriving DecidableEq

/-- server.py lines 91-108: `_check_scope`.  `none` means authorized.  When
claims are absent (legacy mode) the check always allows; otherwise the
required capability is `operation + ":" + entity` and must be a member of
the claims' scope list. -/
def check_scope (claims : Option DelegationClaims) (entity : String)
    (operation : String) : Option ErrorDict :=
  match claims with
  | none => none
  | some c =>
    let required_scope := operation ++ ":" ++ entity
    if !(c.scope.contains required_scope) then
      some ⟨false, "Agent " ++ squote ++ c.agent ++ squote ++ " not authorized for "
        ++ squote ++ required_scope ++ squote ++ "."⟩
    else none

-- ---------------------------------------------------------------------------
-- server.py: auth middleware
-- ---------------------------------------------------------------------------

/-- The request-scoped context variables of server.py (`_current_claims`,
`_current_token`, `_current_t1_jwt`); each defaults to `None` at the start
of a request.  `token` holds whatever `_current_token.set` received — in
the source that is the `ResolveResult` returned by `resolve()`. -/
structure Ctx where
  claims : Option DelegationClaims
  token : Option ResolveResult
  t1_jwt : Option String
  deriving DecidableEq

/-- The default (absent) context at the start of each request. -/
def emptyCtx : Ctx := ⟨none, none, none⟩

/-- The immutable startup configuration read by `AuthMiddleware.dispatch`:
`_public_key` (K3 bytes or `None`), `_legacy_api_keys`, `_resolver`. -/
structure GatewayConfig where
  public_key : Option String
  legacy_api_keys : List String
  resolver : TokenResolver

/-- The parts of the inbound request that dispatch reads: the URL path and
`request.headers.get("authorization", "")`. -/
structure Request where
  path : String
  authHeader : String

/-- server.py lines 402-403: bearer extraction —
`auth_header[7:] if auth_header.startswith("Bearer ") else ""`. -/
def bearerValue (auth_header : String) : String :=
  if strStartsWith auth_header "Bearer " then strDrop auth_header 7 else ""

/-- The value produced by the downstream application (`call_next` and the
mounted tool handlers), abstracted: it may read the request context and
either return a response or raise. -/
abbrev Downstream := Ctx → Except String Nat

/-- What dispatch hands back to the transport: an auth rejection
(`JSONResponse` with a status code and an error message) or the downstream
response passed through. -/
inductive HttpReply where
  | rejected (status : Nat) (error : String)
  | passed (resp : Nat)
  deriving DecidableEq

/-- server.py lines 398-471: `AuthMiddleware.dispatch`.  Parameters:
`validate` is the oracle for `validate_delegation_token` (signature,
expiry, issuer, audience and tenant checks); `net` is the oracle for the
dynamic resolver's HTTP exchange; `next` is `call_next`; `ctx0` is the
request context on entry.  The result pairs the outcome (a propagated
exception, a rejection, or the downstream response) with the context state
at the moment dispatch returns, so that the `try`/`finally` cleanup of the
context variables is visible in the type. -/
def AuthMiddleware.dispatch (cfg : GatewayConfig)
    (validate : String → Option DelegationClaims) (net : HttpOutcome)
    (next : Downstream) (req : Request) (ctx0 : Ctx) :
    Except String HttpReply × Ctx :=
  if req.path == "/health" then
    match next ctx0 with
    | .ok r => (.ok (.passed r), ctx0)
    | .error e => (.error e, ctx0)
  else
    let token := bearerValue req.authHeader
    if !strTruthy cfg.public_key && cfg.legacy_api_keys.isEmpty then
      -- No auth configured at all: development mode
      let k4 := (cfg.resolver.resolve none none net).1
      let ctx1 : Ctx := ⟨none, some k4, none⟩
      match next ctx1 with
      | .ok r => (.ok (.passed r), { ctx1 with token := none })
      | .error e => (.error e, { ctx1 with token := none })
    else if token == "" then
      (.ok (.rejected 401 "Missing authorization"), ctx0)
    else if strTruthy cfg.public_key && countDots token == 2 then
      -- T1 JWT path
      match validate token with
      | some claims =>
        let k4 := (cfg.resolver.resolve (some claims.tenant_id) (some token) net).1
        if !k4.pyTruthy then
          (.ok (.rejected 403 ("No API token for tenant " ++ squote
            ++ claims.tenant_id ++ squote)), ctx0)
        else
          let ctx1 : Ctx := ⟨some claims, some k4, some token⟩
          match next ctx1 with
          | .ok r => (.ok (.passed r), ⟨none, none, none⟩)
          | .error e => (.error e, ⟨none, none, none⟩)
      | none =>
        (.ok (.rejected 401 "Invalid or expired T1 token"), ctx0)
    else if !cfg.legacy_api_keys.isEmpty && cfg.legacy_api_keys.contains token then
      -- Legacy static API key path
      let k4 := (cfg.resolver.resolve none none net).1
      let ctx1 : Ctx := ⟨none, some k4, none⟩
      match next ctx1 with
      | .ok r => (.ok (.passed r), { ctx1 with token := none })
      | .error e => (.error e, { ctx1 with token := none })
    else
      (.ok (.rejected 401 "Invalid credentials"), ctx0)

example :
    AuthMiddleware.dispatch ⟨none, ["k1"], .static (some "k4")⟩ (fun _ => none)
      .timeout (fun _ => .ok 9) ⟨"/mcp", "Bearer k1"⟩ emptyCtx
    = (.ok (.passed 9), emptyCtx) := by rfl

example :
    AuthMiddleware.dispatch ⟨none, ["k1"], .static (some "k4")⟩ (fun _ => none)
      .timeout (fun _ => .ok 9) ⟨"/mcp", "Bearer nope"⟩ emptyCtx
    = (.ok (.rejected 401 "Invalid credentials"), emptyCtx) := by rfl

-- ---------------------------------------------------------------------------
-- server.py: tool handler get_entity
-- ---------------------------------------------------------------------------

/-- Lookup by key in an association list (models a Python dict read; keys
are unique in a dict, so first match suffices). -/
def alookup {α : Type} (kvs : List (String × α)) (k : String) : Option α :=
  match kvs with
  | [] => none
  | (k2, v) :: rest => if k2 == k then some v else alookup rest k

/-- An action entry of the manifest: HTTP method and path template. -/
structure ActionDef where
  method : String
  path : String
  deriving DecidableEq

/-- An entity entry of the (already validated) manifest: backend path,
identifier field (or `none` for singletons), read/search flags, actions. -/
structure EntityDef where
  path : String
  id_field : Option String
  read : Bool
  search : Bool
  actions : List (String × ActionDef)
  deriving DecidableEq

/-- Models `", ".join(names)`. -/
def joinComma : List String → String
  | [] => ""
  | [x] => x
  | x :: rest => x ++ ", " ++ joinComma rest

/-- What `get_entity` returns, separating the three exits that matter:
the `available`/`success` error dicts, and the forwarded backend call
`await _api_client.get(path, token)` together with the value it would send
as the bearer credential. -/
inductive ToolResult where
  | notAvailable (entity : String) (message : String)
  | failure (e : ErrorDict)
  | forwardGet (path : String) (token : ResolveResult)
  deriving DecidableEq

/-- server.py lines 130-176: the `get_entity` tool handler.  `entities` is
the manifest's entity table; `ctx` is the request context set by the
middleware.  The credential guard is `token = _resolve_token()` followed by
`if not token:` — Python truthiness, which distinguishes only `None`
(falsy) from a `ResolveResult` instance (always truthy, whatever its
`token` field holds). -/
def get_entity_fn (entities : List (String × EntityDef)) (ctx : Ctx)
    (entity : String) (id : Option String) : ToolResult :=
  match alookup entities entity with
  | none =>
    .notAvailable entity ("Entity " ++ squote ++ entity ++ squote
      ++ " not configured. Available: " ++ joinComma (entities.map Prod.fst))
  | some entity_def =>
    if !entity_def.read then
      .notAvailable entity ("Read not available for " ++ squote ++ entity ++ squote ++ ".")
    else
      match check_scope ctx.claims entity "read" with
      | some scope_error => .failure scope_error
      | none =>
        match ctx.token with
        | none => .failure ⟨false, "No API token available for this tenant."⟩
        | some rr =>
          match entity_def.id_field with
          | none => .forwardGet entity_def.path rr
          | some _ =>
            if !strTruthy id then
              .failure ⟨false, "Entity " ++ squote ++ entity ++ squote
                ++ " requires an id parameter."⟩
            else .forwardGet (entity_def.path ++ "/" ++ id.getD "") rr

-- ---------------------------------------------------------------------------
-- manifest.py: structural validation
-- ---------------------------------------------------------------------------

/-- A JSON value as loaded by `json.load`. -/
inductive Json where
  | null
  | bool (b : Bool)
  | num (n : Int)
  | str (s : String)
  | arr (xs : List Json)
  | obj (kvs : List (String × Json))

/-- Python `str()` of a JSON-decoded value as interpolated into f-string
error messages: strings verbatim, `True`/`False`, `None`, decimal
integers; the repr of a nested container is abbreviated (no validated
message interpolates a container whose exact repr a claim depends on). -/
def pyStr : Json → String
  | .str s => s
  | .bool true => "True"
  | .bool false => "False"
  | .null => "None"
  | .num n => toString n
  | .arr _ => "[...]"
  | .obj _ => "\x7b...\x7d"

/-- The required fields absent from `kvs`: models `REQUIRED - set(keys)`
followed by `sorted(...)` — filtering the pre-sorted required list yields
the same alphabetical order. -/
def required_missing (required : List String) (kvs : List (String × Json)) :
    List String :=
  required.filter (fun f => (alookup kvs f).isNone)

/-- Python `isinstance(v, str) and v` — `v` is a non-empty JSON string
(the combined condition of checks written
`if not isinstance(x, str) or not x:`). -/
def json_nonempty_str : Json → Bool
  | .str s => !(s == "")
  | _ => false

/-- Python `isinstance(v, bool)`. -/
def json_is_bool : Json → Bool
  | .bool _ => true
  | _ => false

/-- Membership of the method value in `_VALID_METHODS` (a non-string value
is never a member). -/
def method_valid : Json → Bool
  | .str m => ["GET", "POST", "PUT", "PATCH", "DELETE"].contains m
  | _ => false

/-- Python `"search" in entity and not isinstance(entity["search"], bool)`,
negated: the optional `search` field is absent or a boolean. -/
def search_valid (kvs : List (String × Json)) : Bool :=
  match alookup kvs "search" with
  | none => true
  | some v => json_is_bool v

/-- manifest.py lines 117-139: `_validate_action`.  Raising `ValueError` is
modelled as `Except.error` carrying the message; the first failing check
wins.  `(alookup kvs "method").getD .null` models `action["method"]`, whose
presence the missing-fields check already guaranteed.  The Python message
for a bad method interpolates the repr of the `_VALID_METHODS` set, whose
element order is unspecified; the model fixes one rendering of that set,
and renders `str(method)` via `pyStr`. -/
def validate_action (entity_name action_name : String) (action : Json) :
    Except String Unit :=
  match action with
  | .obj kvs =>
    if !(required_missing ["method", "path"] kvs).isEmpty then
      .error ("Entity " ++ squote ++ entity_name ++ squote ++ " action " ++ squote
        ++ action_name ++ squote ++ " missing required fields: "
        ++ joinComma (required_missing ["method", "path"] kvs))
    else if !method_valid ((alookup kvs "method").getD .null) then
      .error ("Entity " ++ squote ++ entity_name ++ squote ++ " action " ++ squote
        ++ action_name ++ squote
        ++ ": method must be one of GET, POST, PUT, PATCH, DELETE, got "
        ++ squote ++ pyStr ((alookup kvs "method").getD .null) ++ squote)
    else if !json_nonempty_str ((alookup kvs "path").getD .null) then
      .error ("Entity " ++ squote ++ entity_name ++ squote ++ " action " ++ squote
        ++ action_name ++ squote ++ ": path must be a non-empty string")
    else .ok ()
  | _ =>
    .error ("Entity " ++ squote ++ entity_name ++ squote ++ " action " ++ squote
      ++ action_name ++ squote ++ " must be an object")

/-- Validate the actions of one entity in declaration order; the first
error aborts (a raised `ValueError` propagates). -/
def validate_actions (entity_name : String) :
    List (String × Json) → Except String Unit
  | [] => .ok ()
  | (action_name, action) :: rest => do
    validate_action entity_name action_name action
    validate_actions entity_name rest

/-- manifest.py lines 87-114: `_validate_entity`.  Checks run in source
order; the first failure raises.  `(alookup kvs f).getD .null` models the
`entity[f]` accesses whose presence the missing-fields check already
guaranteed. -/
def validate_entity (name : String) (entity : Json) : Except String Unit :=
  match entity with
  | .obj kvs =>
    if !(required_missing ["id_field", "path", "read"] kvs).isEmpty then
      .error ("Entity " ++ squote ++ name ++ squote ++ " missing required fields: "
        ++ joinComma (required_missing ["id_field", "path", "read"] kvs))
    else if !json_nonempty_str ((alookup kvs "path").getD .null) then
      .error ("Entity " ++ squote ++ name ++ squote ++ ": path must be a non-empty string")
    else if !json_is_bool ((alookup kvs "read").getD .null) then
      .error ("Entity " ++ squote ++ name ++ squote ++ ": read must be a boolean")
    else if !search_valid kvs then
      .error ("Entity " ++ squote ++ name ++ squote ++ ": search must be a boolean")
    else
      match alookup kvs "actions" with
      | none => .ok ()
      | some (.obj akvs) => validate_actions name akvs
      | some _ =>
        .error ("Entity " ++ squote ++ name ++ squote ++ ": actions must be an object")
  | _ => .error ("Entity " ++ squote ++ name ++ squote ++ " must be an object")

/-- Validate all entities in declaration order; the first error aborts. -/
def validate_entities : List (String × Json) → Except String Unit
  | [] => .ok ()
  | (name, entity) :: rest => do
    validate_entity name entity
    validate_entities rest

/-- manifest.py lines 145-177: `_validate_auth`.  A missing `auth` section
is not an error (the source injects the static default).
`(alookup akvs "mode").getD .null` models `auth.get("mode")` (`None` when
absent).  The bad-mode message interpolates the repr of
`_VALID_AUTH_MODES`, whose element order is unspecified; the model fixes
one rendering of that set and renders `str(mode)` via `pyStr`. -/
def validate_auth (kvs : List (String × Json)) : Except String Unit :=
  match alookup kvs "auth" with
  | none => .ok ()
  | some (.obj akvs) =>
    match (alookup akvs "mode").getD .null with
    | .str m =>
      if m == "static" then
        if !json_nonempty_str ((alookup akvs "token_env").getD .null) then
          .error "auth.token_env must be a non-empty string for static mode"
        else .ok ()
      else if m == "dynamic" then
        match (alookup akvs "resolver_path").getD .null with
        | .str p =>
          if p == "" then
            .error "auth.resolver_path must be a non-empty string for dynamic mode"
          else if !strStartsWith p "/" then
            .error "auth.resolver_path must start with /"
          else .ok ()
        | _ => .error "auth.resolver_path must be a non-empty string for dynamic mode"
      else
        .error ("auth.mode must be one of static, dynamic, got "
          ++ squote ++ m ++ squote)
    | other =>
      .error ("auth.mode must be one of static, dynamic, got "
        ++ squote ++ pyStr other ++ squote)
  | some _ => .error "auth must be an object"

/-- manifest.py lines 59-84: `_validate`.  Checks run in source order:
manifest must be an object; `api_base_url` present, a non-empty string;
`entities` present, a non-empty object; each entity validated in turn; then
the auth section.  Each `raise ValueError` is an `Except.error` and aborts
at the first problem. -/
def validate_manifest (manifest : Json) (path : String) : Except String Unit :=
  match manifest with
  | .obj kvs =>
    match alookup kvs "api_base_url" with
    | none => .error "Manifest missing required field: api_base_url"
    | some base =>
      if !json_nonempty_str base then
        .error "api_base_url must be a non-empty string"
      else
        match alookup kvs "entities" with
        | none => .error "Manifest missing required field: entities"
        | some ents =>
          match ents with
          | .obj ekvs =>
            if ekvs.isEmpty then .error "entities must be a non-empty object"
            else do
              validate_entities ekvs
              validate_auth kvs
          | _ => .error "entities must be a non-empty object"
  | _ => .error ("Manifest must be a JSON object: " ++ path)

example :
    validate_manifest (.obj [("api_base_url", .str "https://x"),
      ("entities", .obj [("aircraft", .obj [("path", .str "/aircraft"),
        ("id_field", .str "id"), ("read", .bool true)])])]) "./manifest.json"
    = .ok () := by rfl

example :
    validate_manifest (.obj []) "./manifest.json"
    = .error "Manifest missing required field: api_base_url" := by rfl

-- ---------------------------------------------------------------------------
-- Enumeration of all structural problems of a manifest
-- ---------------------------------------------------------------------------

/-- All structural problems of one action entry, in the order
`_validate_action` checks them; each element is the exact message the
validator raises for that problem. -/
def action_problems (entity_name action_name : String) (action : Json) :
    List String :=
  match action with
  | .obj kvs =>
    (if !(required_missing ["method", "path"] kvs).isEmpty then
      ["Entity " ++ squote ++ entity_name ++ squote ++ " action " ++ squote
        ++ action_name ++ squote ++ " missing required fields: "
        ++ joinComma (required_missing ["method", "path"] kvs)]
     else [])
    ++ (if !method_valid ((alookup kvs "method").getD .null) then
      ["Entity " ++ squote ++ entity_name ++ squote ++ " action " ++ squote
        ++ action_name ++ squote
        ++ ": method must be one of GET, POST, PUT, PATCH, DELETE, got "
        ++ squote ++ pyStr ((alookup kvs "method").getD .null) ++ squote]
     else [])
    ++ (if !json_nonempty_str ((alookup kvs "path").getD .null) then
      ["Entity " ++ squote ++ entity_name ++ squote ++ " action " ++ squote
        ++ action_name ++ squote ++ ": path must be a non-empty string"]
     else [])
  | _ =>
    ["Entity " ++ squote ++ entity_name ++ squote ++ " action " ++ squote
      ++ action_name ++ squote ++ " must be an object"]

/-- All structural problems of an entity's action table, in declaration
order. -/
def actions_problems (entity_name : String) :
    List (String × Json) → List String
  | [] => []
  | (action_name, action) :: rest =>
    action_problems entity_name action_name action
      ++ actions_problems entity_name rest

/-- All structural problems of one entity entry, in the order
`_validate_entity` checks them. -/
def entity_problems (name : String) (entity : Json) : List String :=
  match entity with
  | .obj kvs =>
    (if !(required_missing ["id_field", "path", "read"] kvs).isEmpty then
      ["Entity " ++ squote ++ name ++ squote ++ " missing required fields: "
        ++ joinComma (required_missing ["id_field", "path", "read"] kvs)]
     else [])
    ++ (if !json_nonempty_str ((alookup kvs "path").getD .null) then
      ["Entity " ++ squote ++ name ++ squote ++ ": path must be a non-empty string"]
     else [])
    ++ (if !json_is_bool ((alookup kvs "read").getD .null) then
      ["Entity " ++ squote ++ name ++ squote ++ ": read must be a boolean"]
     else [])
    ++ (if !search_valid kvs then
      ["Entity " ++ squote ++ name ++ squote ++ ": search must be a boolean"]
     else [])
    ++ (match alookup kvs "actions" with
        | none => []
        | some (.obj akvs) => actions_problems name akvs
        | some _ =>
          ["Entity " ++ squote ++ name ++ squote ++ ": actions must be an object"])
  | _ => ["Entity " ++ squote ++ name ++ squote ++ " must be an object"]

/-- All structural problems of the entity table, in declaration order. -/
def entities_problems : List (String × Json) → List String
  | [] => []
  | (name, entity) :: rest =>
    entity_problems name entity ++ entities_problems rest

/-- All structural problems of the auth section, in the order
`_validate_auth` checks them. -/
def auth_problems (kvs : List (String × Json)) : List String :=
  match alookup kvs "auth" with
  | none => []
  | some (.obj akvs) =>
    match (alookup akvs "mode").getD .null with
    | .str m =>
      if m == "static" then
        if !json_nonempty_str ((alookup akvs "token_env").getD .null) then
          ["auth.token_env must be a non-empty string for static mode"]
        else []
      else if m == "dynamic" then
        match (alookup akvs "resolver_path").getD .null with
        | .str p =>
          if p == "" then
            ["auth.resolver_path must be a non-empty string for dynamic mode"]
          else if !strStartsWith p "/" then
            ["auth.resolver_path must start with /"]
          else []
        | _ => ["auth.resolver_path must be a non-empty string for dynamic mode"]
      else
        ["auth.mode must be one of static, dynamic, got "
          ++ squote ++ m ++ squote]
    | other =>
      ["auth.mode must be one of static, dynamic, got "
        ++ squote ++ pyStr other ++ squote]
  | some _ => ["auth must be an object"]

/-- All structural problems of a manifest, each with the exact message
`_validate` raises for it, listed in the order the checks run: the
JSON-object shape, then the `api_base_url` checks, then the `entities`
checks (each entity in turn, each action in turn), then the auth section.
A manifest is structurally well-formed exactly when this list is empty. -/
def manifest_problems (manifest : Json) (path : String) : List String :=
  match manifest with
  | .obj kvs =>
    (match alookup kvs "api_base_url" with
     | none => ["Manifest missing required field: api_base_url"]
     | some base =>
       if !json_nonempty_str base then
         ["api_base_url must be a non-empty string"]
       else [])
    ++ (match alookup kvs "entities" with
        | none => ["Manifest missing required field: entities"]
        | some ents =>
          match ents with
          | .obj ekvs =>
            if ekvs.isEmpty then ["entities must be a non-empty object"]
            else entities_problems ekvs
          | _ => ["entities must be a non-empty object"])
    ++ auth_problems kvs
  | _ => ["Manifest must be a JSON object: " ++ path]

/-- `v` is the outcome of a validator that stops at the first problem of
`ps`: it succeeds when `ps` is empty and raises exactly the first element
of `ps` otherwise. -/
def reportsFirst (v : Except String Unit) : List String → Prop
  | [] => v = .ok ()
  | e :: _ => v = .error e

-- ---------------------------------------------------------------------------
-- Helper lemmas on the string primitives
-- ---------------------------------------------------------------------------

theorem listIsPrefixOfAppend (l r : List Char) : l.isPrefixOf (l ++ r) = true := by
  induction l with
  | nil => simp [List.isPrefixOf]
  | cons c t ih => simp [List.isPrefixOf, ih]

theorem hasInfixAppendRight (l pat : List Char) : hasInfix pat (l ++ pat) = true := by
  induction l with
  | nil =>
    cases pat with
    | nil => rfl
    | cons c t =>
      have h := listIsPrefixOfAppend (c :: t) []
      simp at h
      simp [hasInfix, h]
  | cons c t ih => simp [hasInfix, ih]

theorem pyReplaceFuelNoOccur (pat : List Char) :
    ∀ (s : List Char) (fuel : Nat), s.length ≤ fuel → hasInfix pat s = false →
      pyReplaceFuel pat [] fuel s = s := by
  intro s
  induction s with
  | nil => intro fuel _ _; cases fuel <;> rfl
  | cons c t ih =>
    intro fuel hlen hocc
    cases fuel with
    | zero => simp at hlen
    | succ f =>
      simp only [hasInfix, Bool.or_eq_false_iff] at hocc
      simp only [pyReplaceFuel, hocc.1, Bool.false_eq_true, if_false]
      have : t.length ≤ f := by simp at hlen; omega
      rw [ih f this hocc.2]

theorem pyReplaceFuelStrip (pat xd : List Char) (hp : pat ≠ [])
    (hocc : hasInfix pat xd = false) :
    pyReplaceFuel pat [] (xd.length + pat.length) (pat ++ xd) = xd := by
  cases pat with
  | nil => exact absurd rfl hp
  | cons c pt =>
    have hpre : (c :: pt).isPrefixOf (c :: (pt ++ xd)) = true :=
      listIsPrefixOfAppend (c :: pt) xd
    show pyReplaceFuel (c :: pt) [] (xd.length + pt.length + 1) (c :: (pt ++ xd)) = xd
    simp only [pyReplaceFuel, hpre, if_true, List.nil_append]
    show pyReplaceFuel (c :: pt) [] (xd.length + pt.length)
      ((pt ++ xd).drop pt.length) = xd
    rw [List.drop_left]
    exact pyReplaceFuelNoOccur (c :: pt) xd (xd.length + pt.length)
      (Nat.le_add_right _ _) hocc

-- ---------------------------------------------------------------------------
-- Claim theorems
-- ---------------------------------------------------------------------------

/-- C5: the scope check allows exactly when `operation ++ ":" ++ entity` is a
member of the claims' scope set (exact string match); absent claims always
allow; a denial carries exactly the error text naming the agent identifier
and the missing capability string. -/
theorem C5_scope_check (claims : Option DelegationClaims) (entity operation : String) :
    (claims = none → check_scope claims entity operation = none) ∧
    (∀ c, claims = some c →
      (check_scope claims entity operation = none ↔
        (operation ++ ":" ++ entity) ∈ c.scope) ∧
      ((operation ++ ":" ++ entity) ∉ c.scope →
        check_scope claims entity operation = some ⟨false,
          "Agent " ++ squote ++ c.agent ++ squote ++ " not authorized for "
            ++ squote ++ (operation ++ ":" ++ entity) ++ squote ++ "."⟩)) := by
  constructor
  · intro h; subst h; rfl
  · intro c hc; subst hc
    constructor
    · by_cases hm : (operation ++ ":" ++ entity) ∈ c.scope <;>
        simp [check_scope, hm]
    · intro hm
      simp [check_scope, hm]

/-- C5 witness: a concrete agent with scope `["read:aircraft"]` is allowed
`read` on `aircraft`, denied `write` on `aircraft` with the exact denial
text, and a legacy (claims-absent) caller is always allowed. -/
theorem C5_scope_check_witness :
    check_scope (some ⟨"t-1", "o", "tucker", ["read:aircraft"], "read_only", "", ""⟩)
        "aircraft" "read" = none ∧
    check_scope (some ⟨"t-1", "o", "tucker", ["read:aircraft"], "read_only", "", ""⟩)
        "aircraft" "write" = some ⟨false,
          "Agent " ++ squote ++ "tucker" ++ squote ++ " not authorized for "
            ++ squote ++ ("write" ++ ":" ++ "aircraft") ++ squote ++ "."⟩ ∧
    check_scope none "mission" "write" = none := by
  refine ⟨?_, ?_, ?_⟩
  · exact ((C5_scope_check (some ⟨"t-1", "o", "tucker", ["read:aircraft"], "read_only", "", ""⟩)
      "aircraft" "read").2 _ rfl).1.mpr (by decide)
  · exact ((C5_scope_check (some ⟨"t-1", "o", "tucker", ["read:aircraft"], "read_only", "", ""⟩)
      "aircraft" "write").2 _ rfl).2 (by decide)
  · exact (C5_scope_check none "mission" "write").1 rfl

/-- C7: starting from the default (absent) request context, every exit path
of `AuthMiddleware.dispatch` — pass-through, early rejection, and an
exception raised by the downstream handler — returns with the context
cleared back to absent (claims, resolved credential, raw T1 all `none`). -/
theorem C7_context_cleared (cfg : GatewayConfig)
    (validate : String → Option DelegationClaims) (net : HttpOutcome)
    (next : Downstream) (req : Request) :
    (AuthMiddleware.dispatch cfg validate net next req emptyCtx).2 = emptyCtx := by
  unfold AuthMiddleware.dispatch
  dsimp only
  repeat' split <;> try rfl

/-- C7 witness: a concrete run (T1 path with an exception thrown by the
downstream tool) ends with the context cleared. -/
theorem C7_context_cleared_witness :
    (AuthMiddleware.dispatch ⟨some "K3", [], .static (some "k4")⟩
      (fun _ => some ⟨"t-1", "o", "a", [], "read_only", "", ""⟩) .timeout
      (fun _ => .error "boom") ⟨"/mcp", "Bearer x.y.z"⟩ emptyCtx).2 = emptyCtx :=
  C7_context_cleared ⟨some "K3", [], .static (some "k4")⟩
    (fun _ => some ⟨"t-1", "o", "a", [], "read_only", "", ""⟩) .timeout
    (fun _ => .error "boom") ⟨"/mcp", "Bearer x.y.z"⟩

/-- C9: a static-mode resolver built by `TokenResolver.__init__` is
argument-independent and idempotent: any two calls return the same result,
namely the stripped value of the configured environment variable read at
construction time (reason `"ok"`), or absence with the missing-configuration
reason `"missing_env_var"` when that source was empty; no call touches the
network. -/
theorem C9_static_resolve (env : String → String) (env_var url : String)
    (r : TokenResolver)
    (hr : TokenResolver.init ⟨some "static", some env_var, none⟩ env url = .ok r) :
    (∀ t1 j1 n1 t2 j2 n2, r.resolve t1 j1 n1 = r.resolve t2 j2 n2) ∧
    (∀ t j n, r.resolve t j n =
      if pyStrip (env env_var) == "" then (⟨none, "missing_env_var"⟩, false)
      else (⟨some (pyStrip (env env_var)), "ok"⟩, false)) := by
  have hr2 : r = .static
      (if pyStrip (env env_var) = "" then none else some (pyStrip (env env_var))) := by
    simp only [TokenResolver.init, Option.getD] at hr
    simp at hr
    exact hr.symm
  subst hr2
  constructor
  · intro t1 j1 n1 t2 j2 n2
    by_cases hc : pyStrip (env env_var) = "" <;>
      simp [TokenResolver.resolve, strTruthy, hc]
  · intro t j n
    by_cases hc : pyStrip (env env_var) = "" <;>
      simp [TokenResolver.resolve, strTruthy, hc]

/-- C9 witness: with the environment variable set to `" k4-token "`, the
resolver returns the stripped credential for two entirely different argument
lists. -/
theorem C9_static_resolve_witness :
    TokenResolver.resolve (.static (some "k4-token")) (some "t-1") (some "j.w.t")
        (.status 500 none)
      = TokenResolver.resolve (.static (some "k4-token")) none none .timeout ∧
    TokenResolver.resolve (.static (some "k4-token")) none none .timeout
      = (⟨some "k4-token", "ok"⟩, false) := by
  have h := C9_static_resolve
    (fun v => if v == "CLIENT_API_TOKEN" then " k4-token " else "")
    "CLIENT_API_TOKEN" "https://api.example.com"
    (.static (some "k4-token")) (by rfl)
  refine ⟨h.1 (some "t-1") (some "j.w.t") (.status 500 none) none none .timeout, ?_⟩
  have h2 := h.2 none none .timeout
  simpa using h2

/-- C10: when a delegation-verification public key is configured, every
extracted bearer value with exactly two dots for which validation fails is
rejected with 401 "Invalid or expired T1 token" — for any set of legacy
keys, including sets containing that very bearer value, so the value is
never compared against the legacy keys. -/
theorem C10_jwt_routing (pk : String) (hpk : pk ≠ "")
    (keys : List String) (resolver : TokenResolver)
    (validate : String → Option DelegationClaims) (net : HttpOutcome)
    (next : Downstream) (req : Request)
    (hpath : req.path ≠ "/health")
    (hdots : countDots (bearerValue req.authHeader) = 2)
    (hval : validate (bearerValue req.authHeader) = none) :
    AuthMiddleware.dispatch ⟨some pk, keys, resolver⟩ validate net next req emptyCtx
      = (.ok (.rejected 401 "Invalid or expired T1 token"), emptyCtx) := by
  have hne : bearerValue req.authHeader ≠ "" := by
    intro h
    rw [h] at hdots
    exact absurd hdots (by decide)
  unfold AuthMiddleware.dispatch
  simp [strTruthy, hpk, hpath, hne, hdots, hval]

/-- C10 witness: the legacy key `"a.b.c"` is itself configured, a public key
is configured, and the validator rejects the token — the call is rejected as
an invalid T1 token, not authenticated via the legacy key. -/
theorem C10_jwt_routing_witness :
    AuthMiddleware.dispatch ⟨some "K3", ["a.b.c"], .static (some "k4")⟩
      (fun _ => none) .connError (fun _ => .ok 0) ⟨"/mcp", "Bearer a.b.c"⟩ emptyCtx
      = (.ok (.rejected 401 "Invalid or expired T1 token"), emptyCtx) :=
  C10_jwt_routing "K3" (by decide) ["a.b.c"] (.static (some "k4"))
    (fun _ => none) .connError (fun _ => .ok 0) ⟨"/mcp", "Bearer a.b.c"⟩
    (by decide) (by decide) rfl

/-- C1: evaluation at the failing input.  A valid T1 for tenant `t-1` is
presented while the dynamic resolver answers HTTP 404, so resolution fails
(the returned `ResolveResult` carries no token, reason `resolver_http_404`)
— yet, because the `ResolveResult` instance is truthy, the `if not k4:`
rejection in `AuthMiddleware.dispatch` never fires: the call is forwarded
downstream (`passed`), not rejected with the 403 no-credential error. -/
theorem C1_resolution_failure_not_rejected :
    (TokenResolver.resolve (.dynamic "https://api.example.com/resolve")
        (some "t-1") (some "h.p.s") (.status 404 none)).1
      = ⟨none, "resolver_http_404"⟩
    ∧ ResolveResult.pyTruthy ⟨none, "resolver_http_404"⟩ = true
    ∧ AuthMiddleware.dispatch
        ⟨some "K3", [], .dynamic "https://api.example.com/resolve"⟩
        (fun t => if t == "h.p.s"
          then some ⟨"t-1", "org-1", "tucker", ["read:aircraft"], "read_only", "s", "j"⟩
          else none)
        (.status 404 none) (fun _ => .ok 5) ⟨"/mcp", "Bearer h.p.s"⟩ emptyCtx
      = (.ok (.passed 5), emptyCtx) :=
  ⟨rfl, rfl, rfl⟩

/-- C2: evaluation at the failing input.  A legacy static-key call under
dynamic-mode resolution attaches `ResolveResult(None,
"missing_jwt_for_dynamic_mode")` to the context — an absent backend
credential.  The `get_entity` tool's `if not token:` guard sees a truthy
`ResolveResult` and forwards the request to the backend API
(`forwardGet`) instead of returning the no-credential error; the second
conjunct runs the full middleware-plus-tool pipeline and observes the
forwarded call (downstream reports `1` exactly when `get_entity`
forwarded). -/
theorem C2_absent_credential_forwarded :
    get_entity_fn [("aircraft", ⟨"/aircraft", some "id", true, false, []⟩)]
        ⟨none, some ⟨none, "missing_jwt_for_dynamic_mode"⟩, none⟩ "aircraft" (some "ac-1")
      = .forwardGet "/aircraft/ac-1" ⟨none, "missing_jwt_for_dynamic_mode"⟩
    ∧ AuthMiddleware.dispatch ⟨none, ["legacy-abc"], .dynamic "https://x/resolve"⟩
        (fun _ => none) (.status 200 (some "k4"))
        (fun ctx =>
          match get_entity_fn [("aircraft", ⟨"/aircraft", some "id", true, false, []⟩)]
              ctx "aircraft" (some "ac-1") with
          | .forwardGet _ _ => .ok 1
          | _ => .ok 0)
        ⟨"/mcp", "Bearer legacy-abc"⟩ emptyCtx
      = (.ok (.passed 1), emptyCtx) :=
  ⟨rfl, rfl⟩

/-- C3 counterexample: the configured legacy key `legacy-abc` presented as a
raw (unprefixed) authorization header is rejected with 401 "Missing
authorization" — it does not authenticate, so bearer extraction does not
accept a raw unprefixed value. -/
theorem C3_counterexample :
    AuthMiddleware.dispatch ⟨none, ["legacy-abc"], .static (some "k4")⟩
      (fun _ => none) .timeout (fun _ => .ok 7) ⟨"/mcp", "legacy-abc"⟩ emptyCtx
    = (.ok (.rejected 401 "Missing authorization"), emptyCtx) := rfl

/-- C3 amended: bearer extraction accepts only the `"Bearer <value>"` form
(the extracted value is the suffix after the prefix); any header not
starting with `"Bearer "` — including a raw legacy key — yields no bearer
value, and when authentication material is configured the call is rejected
with "Missing authorization". -/
theorem C3_amended_bearer_only :
    (∀ (cfg : GatewayConfig) (validate : String → Option DelegationClaims)
      (net : HttpOutcome) (next : Downstream) (req : Request),
      strStartsWith req.authHeader "Bearer " = false →
      (strTruthy cfg.public_key = true ∨ cfg.legacy_api_keys ≠ []) →
      req.path ≠ "/health" →
      AuthMiddleware.dispatch cfg validate net next req emptyCtx
        = (.ok (.rejected 401 "Missing authorization"), emptyCtx)) ∧
    (∀ v : String, bearerValue ("Bearer " ++ v) = v) := by
  constructor
  · intro cfg validate net next req hstart hauth hpath
    have htok : bearerValue req.authHeader = "" := by
      unfold bearerValue
      simp [hstart]
    have hdev : (!strTruthy cfg.public_key && cfg.legacy_api_keys.isEmpty) = false := by
      rcases hauth with h | h
      · simp [h]
      · simp [List.isEmpty_iff, h]
    unfold AuthMiddleware.dispatch
    simp [hpath, hdev, htok]
  · intro v
    unfold bearerValue
    have hpre : strStartsWith ("Bearer " ++ v) "Bearer " = true := by
      unfold strStartsWith
      rw [String.data_append]
      exact listIsPrefixOfAppend _ _
    simp only [hpre, if_true]
    unfold strDrop
    rw [String.data_append]
    have h7 : ("Bearer ".data).length = 7 := rfl
    rw [← h7, List.drop_left]

/-- C3 amended witness: a raw-key request is rejected as missing
authorization, and the prefixed form of the same key extracts exactly the
key. -/
theorem C3_amended_bearer_only_witness :
    AuthMiddleware.dispatch ⟨none, ["legacy-xyz"], .static (some "k4")⟩
      (fun _ => none) .timeout (fun _ => .ok 7) ⟨"/mcp", "legacy-xyz"⟩ emptyCtx
      = (.ok (.rejected 401 "Missing authorization"), emptyCtx) ∧
    bearerValue ("Bearer " ++ "legacy-xyz") = "legacy-xyz" :=
  ⟨C3_amended_bearer_only.1 ⟨none, ["legacy-xyz"], .static (some "k4")⟩
      (fun _ => none) .timeout (fun _ => .ok 7) ⟨"/mcp", "legacy-xyz"⟩
      (by decide) (Or.inr (by decide)) (by decide),
    C3_amended_bearer_only.2 "legacy-xyz"⟩

/-- C4 counterexample: for the subject `"agent:agent:bob"` (the form
`"agent:X"` with `X = "agent:bob"`), the derived agent identifier is not
`X`: Python `replace` removes the inner occurrence of `"agent:"` too, so
the code yields `"bob"`. -/
theorem C4_counterexample :
    agentFromSub ("agent:" ++ "agent:bob") ≠ "agent:bob"
    ∧ agentFromSub ("agent:" ++ "agent:bob") = "bob" := by
  exact ⟨by decide, by decide⟩

/-- C4 amended: for a validated token with subject `"agent:X"` the derived
agent identifier equals `X` whenever `X` itself contains no occurrence of
`"agent:"` (in general every occurrence is removed, not only the leading
prefix); for a subject not starting with `"agent:"` the identifier equals
the raw subject; and the claims built by `validate_delegation_token` carry
exactly this derived identifier. -/
theorem C4_amended_agent_derivation :
    (∀ X : String, hasInfix "agent:".data X.data = false →
      agentFromSub ("agent:" ++ X) = X) ∧
    (∀ sub : String, strStartsWith sub "agent:" = false → agentFromSub sub = sub) ∧
    (∀ (p : JwtPayload) (c : DelegationClaims), claimsFromPayload p = some c →
      c.agent = agentFromSub (p.sub.getD "")) := by
  refine ⟨?_, ?_, ?_⟩
  · intro X hX
    unfold agentFromSub
    have hc : strStartsWith ("agent:" ++ X) "agent:" = true := by
      unfold strStartsWith
      rw [String.data_append]
      exact listIsPrefixOfAppend _ _
    simp only [hc, if_true]
    unfold pyReplace
    rw [String.data_append]
    have hlen : ("agent:".data ++ X.data).length
        = X.data.length + ("agent:".data).length := by
      rw [List.length_append]; omega
    rw [show ("" : String).data = [] from rfl, hlen,
      pyReplaceFuelStrip "agent:".data X.data (by decide) hX]
  · intro sub h
    unfold agentFromSub
    simp [h]
  · intro p c h
    unfold claimsFromPayload at h
    by_cases ht : strTruthy p.tenant_id
    · simp only [ht, Bool.not_true, Bool.false_eq_true, if_false,
        Option.some.injEq] at h
      rw [← h]
    · simp [ht] at h

/-- C4 amended witness: `"agent:tucker"` derives `"tucker"`, `"svc-account"`
stays raw, and a concrete validated payload carries the derived agent. -/
theorem C4_amended_agent_derivation_witness :
    agentFromSub ("agent:" ++ "tucker") = "tucker"
    ∧ agentFromSub "svc-account" = "svc-account" :=
  ⟨C4_amended_agent_derivation.1 "tucker" (by decide),
    C4_amended_agent_derivation.2.1 "svc-account" (by decide)⟩

-- ---------------------------------------------------------------------------
-- C6: reference definition of dynamic-mode resolution (from the claim text)
-- ---------------------------------------------------------------------------

/-- Reasons for absence in the claim's reference description of
dynamic-mode resolution. -/
inductive SpecReason where
  | missingDelegationToken
  | missingTenant
  | noCredentialInResponse
  | httpError (code : Nat)

/-- Reference outcome: a credential obtained, or absence with a reason. -/
inductive SpecOutcome where
  | success (credential : String)
  | absent (reason : SpecReason)

/-- The claim's reference definition of dynamic-mode `resolve`, stated from
its words: no delegation token — absence immediately, no network call; no
tenant id — absence; HTTP 200 with a non-empty credential field — that
credential as success; HTTP 200 with an empty or missing credential field —
absence, no-credential-in-response; any non-200 status — absence with the
status code retained.  The boolean records whether a network call was
made. -/
def resolveDynamicRef (tenant_id t1_jwt : Option String) (code : Nat)
    (cred : Option String) : SpecOutcome × Bool :=
  if !strTruthy t1_jwt then (.absent .missingDelegationToken, false)
  else if !strTruthy tenant_id then (.absent .missingTenant, false)
  else if code == 200 then
    match cred with
    | some c => if c == "" then (.absent .noCredentialInResponse, true)
                else (.success c, true)
    | none => (.absent .noCredentialInResponse, true)
  else (.absent (.httpError code), true)

/-- Correspondence between the code's `ResolveResult` (with its
network-call flag) and the reference outcome: same network behaviour; a
reference success is the same credential with reason `"ok"`; a reference
absence is a token-less result, with the no-credential reason string for
the 200-but-empty case and a reason retaining the decimal status code for
the non-200 case. -/
def agreesWith (cr : ResolveResult × Bool) (ref : SpecOutcome × Bool) : Prop :=
  cr.2 = ref.2 ∧
  match ref.1 with
  | .success c => cr.1.token = some c ∧ cr.1.reason = "ok"
  | .absent .missingDelegationToken => cr.1.token = none
  | .absent .missingTenant => cr.1.token = none
  | .absent .noCredentialInResponse =>
      cr.1.token = none ∧ cr.1.reason = "no_api_token_in_response"
  | .absent (.httpError c) =>
      cr.1.token = none ∧ hasInfix (toString c).data cr.1.reason.data = true

/-- C6: in dynamic mode, `TokenResolver.resolve` agrees with the claim's
reference definition on every input: same decision about issuing the
network call, and case-for-case matching results. -/
theorem C6_dynamic_matches_ref (url : String) (tenant_id t1_jwt : Option String)
    (code : Nat) (cred : Option String) :
    agreesWith
      (TokenResolver.resolve (.dynamic url) tenant_id t1_jwt (.status code cred))
      (resolveDynamicRef tenant_id t1_jwt code cred) := by
  unfold agreesWith TokenResolver.resolve resolveDynamicRef
  by_cases hj : strTruthy t1_jwt
  · by_cases ht : strTruthy tenant_id
    · by_cases hc : code == 200
      · cases cred with
        | none => simp only [hj, ht, hc]; simp [strTruthy]
        | some s =>
          by_cases hs : s = ""
          · simp only [hj, ht, hc]; simp [strTruthy, hs]
          · simp only [hj, ht, hc]; simp [strTruthy, hs]
      · simp only [hj, ht, hc]
        simp only [Bool.not_true, Bool.false_eq_true, if_false, if_true,
          Bool.true_eq_false]
        refine ⟨by trivial, by trivial, ?_⟩
        rw [String.data_append]
        exact hasInfixAppendRight _ _
    · simp [hj, ht]
  · simp [hj]

/-- C6 witness: concrete agreement for a 404 response. -/
theorem C6_dynamic_matches_ref_witness :
    agreesWith
      (TokenResolver.resolve (.dynamic "https://x/resolve") (some "t-1")
        (some "j.w.t") (.status 404 none))
      (resolveDynamicRef (some "t-1") (some "j.w.t") 404 none) :=
  C6_dynamic_matches_ref "https://x/resolve" (some "t-1") (some "j.w.t") 404 none

/-- C8 counterexample: the empty manifest object has at least two structural
problems — `api_base_url` missing and `entities` missing — yet validation
reports only the first, and the reported message never mentions
`entities`: the error does not enumerate every problem. -/
theorem C8_counterexample :
    validate_manifest (.obj []) "./manifest.json"
      = .error "Manifest missing required field: api_base_url"
    ∧ alookup ([] : List (String × Json)) "entities" = none
    ∧ hasInfix "entities".data
        "Manifest missing required field: api_base_url".data = false :=
  ⟨rfl, rfl, by decide⟩

theorem reportsFirst_seq {v1 v2 : Except String Unit} {ps1 ps2 : List String}
    (h1 : reportsFirst v1 ps1) (h2 : reportsFirst v2 ps2) :
    reportsFirst (v1 >>= fun _ => v2) (ps1 ++ ps2) := by
  cases ps1 with
  | nil =>
    have h1e : v1 = .ok () := h1
    rw [h1e]
    exact h2
  | cons e rest =>
    have h1e : v1 = .error e := h1
    show (v1 >>= fun _ => v2) = .error e
    rw [h1e]
    rfl

theorem action_reportsFirst (en an : String) (a : Json) :
    reportsFirst (validate_action en an a) (action_problems en an a) := by
  cases a <;> try rfl
  case obj kvs =>
  simp only [validate_action, action_problems]
  cases h1 : (required_missing ["method", "path"] kvs).isEmpty <;>
    cases h2 : method_valid ((alookup kvs "method").getD .null) <;>
      cases h3 : json_nonempty_str ((alookup kvs "path").getD .null) <;>
        simp [h1, h2, h3, reportsFirst]

theorem actions_reportsFirst (en : String) (l : List (String × Json)) :
    reportsFirst (validate_actions en l) (actions_problems en l) := by
  induction l with
  | nil => rfl
  | cons hd tl ih =>
    obtain ⟨an, a⟩ := hd
    exact reportsFirst_seq (action_reportsFirst en an a) ih

theorem entity_reportsFirst (name : String) (e : Json) :
    reportsFirst (validate_entity name e) (entity_problems name e) := by
  cases e <;> try rfl
  case obj kvs =>
  simp only [validate_entity, entity_problems]
  cases h1 : (required_missing ["id_field", "path", "read"] kvs).isEmpty <;>
    cases h2 : json_nonempty_str ((alookup kvs "path").getD .null) <;>
      cases h3 : json_is_bool ((alookup kvs "read").getD .null) <;>
        cases h4 : search_valid kvs <;>
          simp only [h1, h2, h3, h4, Bool.not_false, Bool.not_true,
            Bool.false_eq_true, if_false, if_true, List.nil_append,
            List.cons_append, List.append_nil, List.singleton_append] <;>
          try rfl
  all_goals
    cases h5 : alookup kvs "actions" with
    | none => rfl
    | some v =>
      cases v <;> try rfl
      case obj akvs => exact actions_reportsFirst name akvs

theorem entities_reportsFirst (l : List (String × Json)) :
    reportsFirst (validate_entities l) (entities_problems l) := by
  induction l with
  | nil => rfl
  | cons hd tl ih =>
    obtain ⟨name, e⟩ := hd
    exact reportsFirst_seq (entity_reportsFirst name e) ih

theorem auth_reportsFirst (kvs : List (String × Json)) :
    reportsFirst (validate_auth kvs) (auth_problems kvs) := by
  cases ha : alookup kvs "auth" with
  | none => simp only [validate_auth, auth_problems, ha]; rfl
  | some v =>
    cases v <;> simp only [validate_auth, auth_problems, ha] <;> try rfl
    case obj akvs =>
    cases hm : (alookup akvs "mode").getD Json.null <;> simp only [hm] <;> try rfl
    case str m =>
    by_cases hs : m = "static"
    · subst hs
      simp only [beq_self_eq_true, if_true]
      cases ht : json_nonempty_str ((alookup akvs "token_env").getD .null) <;>
        simp [ht, reportsFirst]
    · by_cases hd : m = "dynamic"
      · subst hd
        simp only [show (("dynamic" : String) == "static") = false from rfl,
          beq_self_eq_true, if_false, if_true, Bool.false_eq_true]
        cases hr : (alookup akvs "resolver_path").getD Json.null <;>
          simp only [hr] <;> try rfl
        next p =>
        by_cases hp : p = ""
        · simp [hp, reportsFirst]
        · cases hw : strStartsWith p "/" <;> simp [hp, hw, reportsFirst]
      · simp [hs, hd, reportsFirst]

theorem manifest_reportsFirst (m : Json) (path : String) :
    reportsFirst (validate_manifest m path) (manifest_problems m path) := by
  cases m <;> try rfl
  case obj kvs =>
  simp only [validate_manifest, manifest_problems]
  cases ha : alookup kvs "api_base_url" with
  | none => rfl
  | some base =>
    cases hb : json_nonempty_str base
    · simp [hb, reportsFirst]
    · simp only [hb, Bool.not_true, Bool.false_eq_true, if_false,
        List.nil_append]
      cases he : alookup kvs "entities" with
      | none => rfl
      | some ents =>
        cases ents <;> try rfl
        case obj ekvs =>
        cases hek : ekvs.isEmpty
        · simp only [hek, Bool.false_eq_true, if_false]
          exact reportsFirst_seq (entities_reportsFirst ekvs) (auth_reportsFirst kvs)
        · simp [hek, reportsFirst]

/-- C8 amended: every structurally malformed manifest fails validation with
an error reporting the first structural problem encountered, and a
well-formed manifest validates: `validate_manifest` succeeds exactly when
the manifest's problem list (all problems, in check order) is empty, and
otherwise raises precisely the first problem of that list — later problems
are never enumerated. -/
theorem C8_first_error (m : Json) (path : String) :
    (manifest_problems m path = [] → validate_manifest m path = .ok ()) ∧
    (∀ e rest, manifest_problems m path = e :: rest →
      validate_manifest m path = .error e) := by
  have h := manifest_reportsFirst m path
  constructor
  · intro h0
    rw [h0] at h
    exact h
  · intro e rest h0
    rw [h0] at h
    exact h

/-- C8 amended witness: a manifest whose only key is a malformed `entities`
has two problems yet reports only the first (the missing `api_base_url`),
and a well-formed manifest validates. -/
theorem C8_first_error_witness :
    validate_manifest (.obj [("entities", .num 3)]) "./manifest.json"
      = .error "Manifest missing required field: api_base_url" ∧
    validate_manifest (.obj [("api_base_url", .str "https://x"),
      ("entities", .obj [("aircraft", .obj [("path", .str "/aircraft"),
        ("id_field", .str "id"), ("read", .bool true)])])]) "./manifest.json"
      = .ok () :=
  ⟨(C8_first_error (.obj [("entities", .num 3)]) "./manifest.json").2
      "Manifest missing required field: api_base_url"
      ["entities must be a non-empty object"] rfl,
    (C8_first_error (.obj [("api_base_url", .str "https://x"),
      ("entities", .obj [("aircraft", .obj [("path", .str "/aircraft"),
        ("id_field", .str "id"), ("read", .bool true)])])]) "./manifest.json").1 rfl⟩
